import Mathlib

/-!
Verification of the margin-shortfall penalty calculator (src/MP.py).
The calculator core (lines 134-199) is a stateless arithmetic transform
from five scalar inputs to a shortfall classification and penalty
breakdown.  Currency amounts and rates are embedded as exact rationals.
-/

/-- The five caller-supplied inputs of the calculator (src/MP.py lines
85-128): `margin_available`, `margin_required`, the chosen base
`penalty_rate`, and the optional `consecutive_days` / `monthly_instances`
counters. -/
structure MarginInput where
  margin_available : ℚ
  margin_required : ℚ
  penalty_rate : ℚ
  consecutive_days : ℕ
  monthly_instances : ℕ
deriving DecidableEq

/-- Line 134: `shortfall = max(0, margin_required - margin_available)`. -/
def shortfall (i : MarginInput) : ℚ :=
  max 0 (i.margin_required - i.margin_available)

/-- Line 135: `shortfall_percentage = (shortfall / margin_required * 100)
if margin_required > 0 else 0`. -/
def shortfall_percentage (i : MarginInput) : ℚ :=
  if i.margin_required > 0 then shortfall i / i.margin_required * 100 else 0

/-- Line 165: `is_penalty_by_amount = shortfall >= 100000`. -/
def is_penalty_by_amount (i : MarginInput) : Bool :=
  shortfall i ≥ 100000

/-- Line 166: `is_penalty_by_percentage = shortfall_percentage >= 10`. -/
def is_penalty_by_percentage (i : MarginInput) : Bool :=
  shortfall_percentage i ≥ 10

/-- Line 167: `is_penalty_applicable = is_penalty_by_amount or
is_penalty_by_percentage`. -/
def is_penalty_applicable (i : MarginInput) : Bool :=
  is_penalty_by_amount i || is_penalty_by_percentage i

/-- Lines 170-172: the effective rate starts at the caller-chosen
`penalty_rate` and is overridden to `5.0` when `consecutive_days > 3 or
monthly_instances > 5`. -/
def effective_penalty_rate (i : MarginInput) : ℚ :=
  if i.consecutive_days > 3 ∨ i.monthly_instances > 5 then 5.0 else i.penalty_rate

/-- The two trigger conditions reported in the `reasons` list
(lines 202-206); the formatted message strings are abstracted to tags. -/
inductive TriggerReason where
  | byAmount
  | byPercentage
deriving DecidableEq

/-- Which of the three result cards the UI renders: line 178 (`safe`),
line 186 (`withinLimits`), line 195 (`penaltyApplicable`). -/
inductive ResultStatus where
  | safe
  | withinLimits
  | penaltyApplicable
deriving DecidableEq

/-- The structured result of one calculator run: the computed figures and,
when a penalty applies, the monetary breakdown of lines 197-199. -/
structure PenaltyResult where
  shortfall : ℚ
  shortfall_pct : ℚ
  penalty_applicable : Bool
  effective_rate : ℚ
  reasons : List TriggerReason
  penalty_amount : Option ℚ
  gst_amount : Option ℚ
  total_penalty : Option ℚ
  status : ResultStatus
deriving DecidableEq

/-- The calculator transform of src/MP.py lines 134-216: the three-way
branch on `shortfall == 0` (line 178), `not is_penalty_applicable`
(line 186), and the penalty computation with
`penalty_on_shortfall = (effective_penalty_rate / 100) * shortfall`,
`gst_on_penalty = penalty_on_shortfall * 0.18`,
`total_penalty = penalty_on_shortfall + gst_on_penalty` (lines 197-199)
and the ordered trigger reasons (lines 202-206). -/
def calculate (i : MarginInput) : PenaltyResult :=
  if shortfall i = 0 then
    { shortfall := shortfall i
      shortfall_pct := shortfall_percentage i
      penalty_applicable := is_penalty_applicable i
      effective_rate := effective_penalty_rate i
      reasons := []
      penalty_amount := none
      gst_amount := none
      total_penalty := none
      status := ResultStatus.safe }
  else if !is_penalty_applicable i then
    { shortfall := shortfall i
      shortfall_pct := shortfall_percentage i
      penalty_applicable := is_penalty_applicable i
      effective_rate := effective_penalty_rate i
      reasons := []
      penalty_amount := none
      gst_amount := none
      total_penalty := none
      status := ResultStatus.withinLimits }
  else
    let penalty_on_shortfall := (effective_penalty_rate i / 100) * shortfall i
    let gst_on_penalty := penalty_on_shortfall * 0.18
    { shortfall := shortfall i
      shortfall_pct := shortfall_percentage i
      penalty_applicable := is_penalty_applicable i
      effective_rate := effective_penalty_rate i
      reasons :=
        (if is_penalty_by_amount i then [TriggerReason.byAmount] else []) ++
        (if is_penalty_by_percentage i then [TriggerReason.byPercentage] else [])
      penalty_amount := some penalty_on_shortfall
      gst_amount := some gst_on_penalty
      total_penalty := some (penalty_on_shortfall + gst_on_penalty)
      status := ResultStatus.penaltyApplicable }

/-- A candidate input before validation: the same five fields with no
range constraint enforced (day/instance counters as unconstrained
integers). -/
structure RawMarginInput where
  margin_available : ℚ
  margin_required : ℚ
  penalty_rate : ℚ
  consecutive_days : ℤ
  monthly_instances : ℤ
deriving DecidableEq

/-- The single input-validity error kind of the spec. -/
inductive InputError where
  | OutOfRangeInput
deriving DecidableEq

/-- The in-range predicate enforced at the input boundary of src/MP.py:
`margin_available ≥ 0` and `margin_required ≥ 0` (lines 87, 96),
`penalty_rate` drawn from `{0.5, 1.0, 5.0}` (line 106),
`0 ≤ consecutive_days ≤ 10` (lines 116-117) and
`0 ≤ monthly_instances ≤ 30` (lines 124-125). -/
def inputInRange (r : RawMarginInput) : Bool :=
  0 ≤ r.margin_available ∧ 0 ≤ r.margin_required ∧
    (r.penalty_rate = 0.5 ∨ r.penalty_rate = 1.0 ∨ r.penalty_rate = 5.0) ∧
    0 ≤ r.consecutive_days ∧ r.consecutive_days ≤ 10 ∧
    0 ≤ r.monthly_instances ∧ r.monthly_instances ≤ 30

/-- Modelled from the spec: the rejection of out-of-range input.  The
bounds themselves are declared in src/MP.py (widget constraints, lines
85-128), but the rejection behaviour is performed by the UI framework
and is not code under src/; per section 7 of the spec, out-of-range
input is surfaced as an `OutOfRangeInput` validation failure before the
computation runs, and is never clamped. -/
def validateMarginInput (r : RawMarginInput) :
    Except InputError RawMarginInput :=
  if inputInRange r then Except.ok r else Except.error InputError.OutOfRangeInput

/-- Shared helper: the shortfall is never negative. -/
theorem shortfall_nonneg (i : MarginInput) : 0 ≤ shortfall i :=
  le_max_left 0 _

/-- Shared helper: with a non-negative available margin, the shortfall
never exceeds the required margin. -/
theorem shortfall_le_required (i : MarginInput)
    (ha : 0 ≤ i.margin_available) (hr : 0 ≤ i.margin_required) :
    shortfall i ≤ i.margin_required := by
  unfold shortfall
  exact max_le hr (by linarith)

/-- Shared helper: a zero shortfall yields a zero shortfall percentage. -/
theorem shortfall_percentage_of_zero (i : MarginInput) (h : shortfall i = 0) :
    shortfall_percentage i = 0 := by
  unfold shortfall_percentage
  split
  · rw [h, zero_div, zero_mul]
  · rfl

/-- Shared helper: when the penalty is applicable the shortfall is
nonzero, so `calculate` takes the penalty branch. -/
theorem shortfall_ne_zero_of_applicable (i : MarginInput)
    (h : is_penalty_applicable i = true) : shortfall i ≠ 0 := by
  intro h0
  have hamt : is_penalty_by_amount i = false := by
    simp [is_penalty_by_amount, h0]
  have hpct : is_penalty_by_percentage i = false := by
    simp [is_penalty_by_percentage, shortfall_percentage_of_zero i h0]
  simp [is_penalty_applicable, hamt, hpct] at h

/-- Claim C1: for every pair of non-negative inputs, the computed
shortfall equals `max 0 (margin_required - margin_available)`, and
consequently `shortfall ≤ margin_required`. -/
theorem claim_C1 (i : MarginInput)
    (ha : 0 ≤ i.margin_available) (hr : 0 ≤ i.margin_required) :
    shortfall i = max 0 (i.margin_required - i.margin_available) ∧
    shortfall i ≤ i.margin_required :=
  ⟨rfl, shortfall_le_required i ha hr⟩

/-- Witness for C1 at `margin_available = 100, margin_required = 250`. -/
theorem claim_C1_witness :
    shortfall ⟨100, 250, 1, 0, 0⟩ = max 0 ((250 : ℚ) - 100) ∧
    shortfall ⟨100, 250, 1, 0, 0⟩ ≤ 250 :=
  claim_C1 ⟨100, 250, 1, 0, 0⟩ (by norm_num) (by norm_num)

/-- Claim C2: penalty applicability is decided by `by_amount iff
shortfall ≥ 100000`, `by_percentage iff shortfall_pct ≥ 10`, and
`penalty_applicable iff (by_amount or by_percentage)`; both comparisons
are non-strict, so the boundary input `margin_required = 100000,
margin_available = 0` yields `shortfall = 100000`, `shortfall_pct = 100`
and trips both thresholds. -/
theorem claim_C2 :
    (∀ i : MarginInput,
      (is_penalty_by_amount i = true ↔ shortfall i ≥ 100000) ∧
      (is_penalty_by_percentage i = true ↔ shortfall_percentage i ≥ 10) ∧
      (is_penalty_applicable i = true ↔
        (is_penalty_by_amount i = true ∨ is_penalty_by_percentage i = true))) ∧
    shortfall ⟨0, 100000, 1, 0, 0⟩ = 100000 ∧
    shortfall_percentage ⟨0, 100000, 1, 0, 0⟩ = 100 ∧
    is_penalty_by_amount ⟨0, 100000, 1, 0, 0⟩ = true ∧
    is_penalty_by_percentage ⟨0, 100000, 1, 0, 0⟩ = true ∧
    is_penalty_applicable ⟨0, 100000, 1, 0, 0⟩ = true := by
  refine ⟨fun i => ⟨?_, ?_, ?_⟩, ?_, ?_, ?_, ?_, ?_⟩
  · simp [is_penalty_by_amount]
  · simp [is_penalty_by_percentage]
  · simp [is_penalty_applicable]
  all_goals norm_num [is_penalty_applicable, is_penalty_by_amount,
    is_penalty_by_percentage, shortfall_percentage, shortfall]

/-- Claim C3: `shortfall_pct` equals `shortfall / margin_required * 100`
when `margin_required > 0`, equals `0` when `margin_required = 0` (no
division by zero), and always lies in `[0, 100]` for non-negative
inputs. -/
theorem claim_C3 (i : MarginInput)
    (ha : 0 ≤ i.margin_available) (hr : 0 ≤ i.margin_required) :
    (i.margin_required > 0 →
      shortfall_percentage i = shortfall i / i.margin_required * 100) ∧
    (i.margin_required = 0 → shortfall_percentage i = 0) ∧
    0 ≤ shortfall_percentage i ∧ shortfall_percentage i ≤ 100 := by
  refine ⟨fun h => by simp [shortfall_percentage, h],
          fun h => by simp [shortfall_percentage, h], ?_, ?_⟩
  · unfold shortfall_percentage
    split
    case isTrue h =>
      exact mul_nonneg (div_nonneg (shortfall_nonneg i) (le_of_lt h)) (by norm_num)
    case isFalse h => exact le_refl 0
  · unfold shortfall_percentage
    split
    case isTrue h =>
      have hle : shortfall i / i.margin_required ≤ 1 :=
        (div_le_one h).mpr (shortfall_le_required i ha hr)
      linarith
    case isFalse h => norm_num

/-- Witness for C3 at `margin_available = 0, margin_required = 100000`. -/
theorem claim_C3_witness :
    ((⟨0, 100000, 1, 0, 0⟩ : MarginInput).margin_required > 0 →
      shortfall_percentage ⟨0, 100000, 1, 0, 0⟩ =
        shortfall ⟨0, 100000, 1, 0, 0⟩ /
          (⟨0, 100000, 1, 0, 0⟩ : MarginInput).margin_required * 100) ∧
    ((⟨0, 100000, 1, 0, 0⟩ : MarginInput).margin_required = 0 →
      shortfall_percentage ⟨0, 100000, 1, 0, 0⟩ = 0) ∧
    0 ≤ shortfall_percentage ⟨0, 100000, 1, 0, 0⟩ ∧
    shortfall_percentage ⟨0, 100000, 1, 0, 0⟩ ≤ 100 :=
  claim_C3 ⟨0, 100000, 1, 0, 0⟩ (by norm_num) (by norm_num)

/-- Claim C4: if `consecutive_days > 3` or `monthly_instances > 5` the
effective rate is `5.0` regardless of the chosen base rate; otherwise it
equals the base rate. -/
theorem claim_C4 (i : MarginInput) :
    ((i.consecutive_days > 3 ∨ i.monthly_instances > 5) →
      effective_penalty_rate i = 5.0) ∧
    (i.consecutive_days ≤ 3 → i.monthly_instances ≤ 5 →
      effective_penalty_rate i = i.penalty_rate) := by
  constructor
  · intro h
    simp [effective_penalty_rate, h]
  · intro hd hm
    have : ¬ (i.consecutive_days > 3 ∨ i.monthly_instances > 5) := by
      push_neg
      exact ⟨hd, hm⟩
    simp [effective_penalty_rate, this]

/-- Witness for C4: `consecutive_days = 4` with base rate `0.5` yields
effective rate `5.0`. -/
theorem claim_C4_witness :
    effective_penalty_rate ⟨0, 0, 0.5, 4, 0⟩ = 5.0 :=
  (claim_C4 ⟨0, 0, 0.5, 4, 0⟩).1 (Or.inl (by norm_num))

/-- Claim C5: when `margin_available ≥ margin_required` (non-negative
inputs), the result is the safe outcome: zero shortfall, no applicable
penalty, no penalty/GST/total fields, and empty reasons. -/
theorem claim_C5 (i : MarginInput)
    (ha : 0 ≤ i.margin_available) (hr : 0 ≤ i.margin_required)
    (h : i.margin_required ≤ i.margin_available) :
    (calculate i).status = ResultStatus.safe ∧
    (calculate i).shortfall = 0 ∧
    (calculate i).penalty_applicable = false ∧
    (calculate i).penalty_amount = none ∧
    (calculate i).gst_amount = none ∧
    (calculate i).total_penalty = none ∧
    (calculate i).reasons = [] := by
  have hs : shortfall i = 0 := by
    unfold shortfall
    exact max_eq_left (by linarith)
  have hpa : is_penalty_applicable i = false := by
    simp [is_penalty_applicable, is_penalty_by_amount, is_penalty_by_percentage,
      hs, shortfall_percentage_of_zero i hs]
  simp [calculate, hs, hpa]

/-- Witness for C5 at `margin_available = 500, margin_required = 500`. -/
theorem claim_C5_witness :
    (calculate ⟨500, 500, 1, 0, 0⟩).status = ResultStatus.safe ∧
    (calculate ⟨500, 500, 1, 0, 0⟩).shortfall = 0 ∧
    (calculate ⟨500, 500, 1, 0, 0⟩).penalty_applicable = false ∧
    (calculate ⟨500, 500, 1, 0, 0⟩).penalty_amount = none ∧
    (calculate ⟨500, 500, 1, 0, 0⟩).gst_amount = none ∧
    (calculate ⟨500, 500, 1, 0, 0⟩).total_penalty = none ∧
    (calculate ⟨500, 500, 1, 0, 0⟩).reasons = [] :=
  claim_C5 ⟨500, 500, 1, 0, 0⟩ (by norm_num) (by norm_num) (by norm_num)

/-- Claim C6: a nonzero shortfall below both thresholds gives the
"within limits" outcome with no penalty, GST or total, and the penalty
stays inapplicable even under rate escalation (the statement covers all
`consecutive_days` / `monthly_instances`, the witness uses
`consecutive_days = 4`). -/
theorem claim_C6 (i : MarginInput) (h0 : shortfall i ≠ 0)
    (h1 : shortfall i < 100000) (h2 : shortfall_percentage i < 10) :
    (calculate i).status = ResultStatus.withinLimits ∧
    (calculate i).penalty_applicable = false ∧
    (calculate i).penalty_amount = none ∧
    (calculate i).gst_amount = none ∧
    (calculate i).total_penalty = none ∧
    (calculate i).reasons = [] := by
  have hpa : is_penalty_applicable i = false := by
    simp only [is_penalty_applicable, is_penalty_by_amount, is_penalty_by_percentage,
      Bool.or_eq_false_iff, decide_eq_false_iff_not, not_le]
    exact ⟨h1, h2⟩
  simp [calculate, h0, hpa]

/-- Witness for C6: `margin_required = 1000000, margin_available =
910000` (shortfall `90000`, percentage `9`) with `consecutive_days = 4`. -/
theorem claim_C6_witness :
    (calculate ⟨910000, 1000000, 1, 4, 0⟩).status = ResultStatus.withinLimits ∧
    (calculate ⟨910000, 1000000, 1, 4, 0⟩).penalty_applicable = false ∧
    (calculate ⟨910000, 1000000, 1, 4, 0⟩).penalty_amount = none ∧
    (calculate ⟨910000, 1000000, 1, 4, 0⟩).gst_amount = none ∧
    (calculate ⟨910000, 1000000, 1, 4, 0⟩).total_penalty = none ∧
    (calculate ⟨910000, 1000000, 1, 4, 0⟩).reasons = [] :=
  claim_C6 ⟨910000, 1000000, 1, 4, 0⟩
    (by norm_num [shortfall])
    (by norm_num [shortfall])
    (by norm_num [shortfall_percentage, shortfall])

/-- Claim C7: whenever the penalty is applicable,
`penalty_amount = (effective_rate / 100) * shortfall`,
`gst_amount = 0.18 * penalty_amount` exactly, and
`total_penalty = penalty_amount + gst_amount = 1.18 * penalty_amount`
exactly. -/
theorem claim_C7 (i : MarginInput) (h : is_penalty_applicable i = true) :
    (calculate i).penalty_amount =
      some (effective_penalty_rate i / 100 * shortfall i) ∧
    (calculate i).gst_amount =
      some (0.18 * (effective_penalty_rate i / 100 * shortfall i)) ∧
    (calculate i).total_penalty =
      some (effective_penalty_rate i / 100 * shortfall i +
        0.18 * (effective_penalty_rate i / 100 * shortfall i)) ∧
    effective_penalty_rate i / 100 * shortfall i +
        0.18 * (effective_penalty_rate i / 100 * shortfall i) =
      1.18 * (effective_penalty_rate i / 100 * shortfall i) := by
  have hs := shortfall_ne_zero_of_applicable i h
  refine ⟨?_, ?_, ?_, by ring⟩ <;>
    simp [calculate, hs, h, mul_comm]

/-- Witness for C7 at `margin_available = 0, margin_required = 100000`,
base rate `1.0`. -/
theorem claim_C7_witness :
    (calculate ⟨0, 100000, 1, 0, 0⟩).penalty_amount =
      some (effective_penalty_rate ⟨0, 100000, 1, 0, 0⟩ / 100 *
        shortfall ⟨0, 100000, 1, 0, 0⟩) ∧
    (calculate ⟨0, 100000, 1, 0, 0⟩).gst_amount =
      some (0.18 * (effective_penalty_rate ⟨0, 100000, 1, 0, 0⟩ / 100 *
        shortfall ⟨0, 100000, 1, 0, 0⟩)) ∧
    (calculate ⟨0, 100000, 1, 0, 0⟩).total_penalty =
      some (effective_penalty_rate ⟨0, 100000, 1, 0, 0⟩ / 100 *
          shortfall ⟨0, 100000, 1, 0, 0⟩ +
        0.18 * (effective_penalty_rate ⟨0, 100000, 1, 0, 0⟩ / 100 *
          shortfall ⟨0, 100000, 1, 0, 0⟩)) ∧
    effective_penalty_rate ⟨0, 100000, 1, 0, 0⟩ / 100 *
          shortfall ⟨0, 100000, 1, 0, 0⟩ +
        0.18 * (effective_penalty_rate ⟨0, 100000, 1, 0, 0⟩ / 100 *
          shortfall ⟨0, 100000, 1, 0, 0⟩) =
      1.18 * (effective_penalty_rate ⟨0, 100000, 1, 0, 0⟩ / 100 *
        shortfall ⟨0, 100000, 1, 0, 0⟩) :=
  claim_C7 ⟨0, 100000, 1, 0, 0⟩
    (by norm_num [is_penalty_applicable, is_penalty_by_amount, shortfall])

/-- Counterexample for C8: at `margin_available = 368578.89,
margin_required = 5361689.21`, base rate `1.0`, the GST amount is
`49931.1032 * 0.18 = 8987.598576`, not `8987.5986` as claimed. -/
theorem claim_C8_counterexample :
    (calculate ⟨368578.89, 5361689.21, 1.0, 0, 0⟩).gst_amount ≠
      some (8987.5986 : ℚ) := by
  have hs : shortfall ⟨368578.89, 5361689.21, 1.0, 0, 0⟩ = 4993110.32 := by
    norm_num [shortfall]
  have hamt : is_penalty_by_amount ⟨368578.89, 5361689.21, 1.0, 0, 0⟩ = true := by
    unfold is_penalty_by_amount
    rw [hs]
    norm_num
  have happ : is_penalty_applicable ⟨368578.89, 5361689.21, 1.0, 0, 0⟩ = true := by
    simp [is_penalty_applicable, hamt]
  have hne : shortfall ⟨368578.89, 5361689.21, 1.0, 0, 0⟩ ≠ 0 := by
    rw [hs]; norm_num
  simp only [calculate, if_neg hne, happ, Bool.not_true, Bool.false_eq_true,
    if_false]
  rw [hs]
  norm_num [effective_penalty_rate]

/-- Claim C8 (amended): at `margin_available = 368578.89,
margin_required = 5361689.21`, base rate `1.0`, no escalation: the
shortfall is `4993110.32`, the shortfall percentage is `93.13` to within
`0.005`, the penalty is applicable, `penalty_amount = 49931.1032`,
`gst_amount = 8987.598576` (which displays as `8987.5986`), and
`total_penalty = 58918.701776`, which is `58918.70` to within `0.005`. -/
theorem claim_C8 :
    shortfall ⟨368578.89, 5361689.21, 1.0, 0, 0⟩ = 4993110.32 ∧
    |shortfall_percentage ⟨368578.89, 5361689.21, 1.0, 0, 0⟩ - 93.13| < 0.005 ∧
    is_penalty_applicable ⟨368578.89, 5361689.21, 1.0, 0, 0⟩ = true ∧
    (calculate ⟨368578.89, 5361689.21, 1.0, 0, 0⟩).penalty_amount =
      some 49931.1032 ∧
    (calculate ⟨368578.89, 5361689.21, 1.0, 0, 0⟩).gst_amount =
      some 8987.598576 ∧
    (calculate ⟨368578.89, 5361689.21, 1.0, 0, 0⟩).total_penalty =
      some 58918.701776 ∧
    |(58918.701776 : ℚ) - 58918.70| < 0.005 := by
  have hs : shortfall ⟨368578.89, 5361689.21, 1.0, 0, 0⟩ = 4993110.32 := by
    norm_num [shortfall]
  have hamt : is_penalty_by_amount ⟨368578.89, 5361689.21, 1.0, 0, 0⟩ = true := by
    unfold is_penalty_by_amount
    rw [hs]
    norm_num
  have happ : is_penalty_applicable ⟨368578.89, 5361689.21, 1.0, 0, 0⟩ = true := by
    simp [is_penalty_applicable, hamt]
  have hne : shortfall ⟨368578.89, 5361689.21, 1.0, 0, 0⟩ ≠ 0 := by
    rw [hs]; norm_num
  refine ⟨hs, ?_, happ, ?_, ?_, ?_, by rw [abs_lt]; constructor <;> norm_num⟩
  · rw [abs_lt]
    constructor <;> norm_num [shortfall_percentage, shortfall]
  all_goals
    simp only [calculate, if_neg hne, happ, Bool.not_true, Bool.false_eq_true,
      if_false]
    rw [hs]
    norm_num [effective_penalty_rate]

/-- Claim C9: out-of-range input (a negative amount, a day/instance
count outside its bounds, or a base rate outside `{0.5, 1.0, 5.0}`) is
rejected as an `OutOfRangeInput` validation failure before any
computation runs, and in-range input passes through unchanged — never
clamped. -/
theorem claim_C9 (r : RawMarginInput) :
    (inputInRange r = false →
      validateMarginInput r = Except.error InputError.OutOfRangeInput) ∧
    (∀ r' : RawMarginInput, validateMarginInput r = Except.ok r' →
      r' = r ∧ inputInRange r = true) := by
  constructor
  · intro h
    simp [validateMarginInput, h]
  · intro r' h
    unfold validateMarginInput at h
    split at h
    case isTrue hin => exact ⟨(Except.ok.injEq _ _).mp h |>.symm, hin⟩
    case isFalse hin => exact absurd h (by simp)

/-- Witness for C9: `consecutive_days = 11` is rejected. -/
theorem claim_C9_witness :
    validateMarginInput ⟨0, 0, 1.0, 11, 0⟩ =
      Except.error InputError.OutOfRangeInput :=
  (claim_C9 ⟨0, 0, 1.0, 11, 0⟩).1 (by norm_num [inputInRange])

/-- Claim C10: when the base rate is drawn from `{0.5, 1.0, 5.0}`, the
effective penalty rate stays in `{0.5, 1.0, 5.0}` — escalation can only
replace the base rate with `5.0`. -/
theorem claim_C10 (i : MarginInput)
    (h : i.penalty_rate = 0.5 ∨ i.penalty_rate = 1.0 ∨ i.penalty_rate = 5.0) :
    effective_penalty_rate i = 0.5 ∨ effective_penalty_rate i = 1.0 ∨
      effective_penalty_rate i = 5.0 := by
  unfold effective_penalty_rate
  split
  · exact Or.inr (Or.inr rfl)
  · exact h

/-- Witness for C10 at base rate `0.5` with `consecutive_days = 4`. -/
theorem claim_C10_witness :
    effective_penalty_rate ⟨0, 0, 0.5, 4, 0⟩ = 0.5 ∨
    effective_penalty_rate ⟨0, 0, 0.5, 4, 0⟩ = 1.0 ∨
    effective_penalty_rate ⟨0, 0, 0.5, 4, 0⟩ = 5.0 :=
  claim_C10 ⟨0, 0, 0.5, 4, 0⟩ (Or.inl rfl)
